import Mathlib

/-!
Verification of the jellyfin Home Assistant integration (`__init__.py`,
`const.py`, `device.py`, `media_browser.py`).

The Python code is shallowly embedded: JSON session dictionaries become
structures with `Option` fields for keys that may be absent (a `KeyError`
raised by a missing key is modelled by an `Option`/`none` result of the
function that would raise), the mutable devices dictionary becomes an
association list threaded through explicit state, and callback invocations
become an explicit event log.  Python `float` arithmetic on tick values is
modelled faithfully: every float is represented by the exact rational it
denotes, and each operation result is rounded to the nearest binary64
value (ties to even) by `fl` before further use.
-/

set_option autoImplicit false

namespace Jellyfin

/-! ### `const.py` -/

def STATE_PLAYING : String := "Playing"

def STATE_PAUSED : String := "Paused"

def STATE_IDLE : String := "Idle"

def STATE_OFF : String := "Off"

/-! ### Session data model

A Jellyfin session is a JSON dictionary.  Only the keys that the embedded
functions read are modelled; a key whose presence is not guaranteed (the
code guards it with `try/except KeyError` or its absence makes the code
raise) is an `Option` field. -/

/-- The `PlayState` sub-dictionary of a session.  `IsPaused` is always
present in a server-produced `PlayState`. -/
structure PlayStateInfo where
  IsPaused : Bool
  PositionTicks : Option Int
deriving DecidableEq

/-- The `NowPlayingItem` sub-dictionary of a session (only the keys the
claims touch). -/
structure NowPlaying where
  IsThemeMedia : Option Bool
  Artists : Option (List String)
  RunTimeTicks : Option Int
deriving DecidableEq

/-- A server-reported session.  `DeviceId` and `Client` are accessed
unguarded by `update_device_list`, so they are required fields. -/
structure Session where
  Id : Option String
  DeviceId : String
  Client : String
  NowPlayingItem : Option NowPlaying
  PlayState : Option PlayStateInfo
deriving DecidableEq

/-! ### `JellyfinDevice`

`__init__.py` lines 145-400 and `device.py` lines 11-251 contain two
textually identical copies of this class; one embedding covers both. -/

structure JellyfinDevice where
  session : Session
  is_active : Bool
deriving DecidableEq

namespace JellyfinDevice

/-- `session_id` property: `session['Id']`, `None` on `KeyError`. -/
def session_id (d : JellyfinDevice) : Option String :=
  d.session.Id

/-- `state` property (`__init__.py` 327-339, `device.py` 192-204).
`none` models the uncaught `KeyError` raised when `NowPlayingItem` is
present but `PlayState` is absent. -/
def state (d : JellyfinDevice) : Option String :=
  if d.is_active then
    match d.session.NowPlayingItem with
    | some _ =>
      match d.session.PlayState with
      | some ps => some (if ps.IsPaused then STATE_PAUSED else STATE_PLAYING)
      | none => none
    | none => some STATE_IDLE
  else
    some STATE_OFF

/-- `media_artist` property (`__init__.py` 247-257, `device.py` 112-122):
with more than one artist it returns the first artist string
(`Sum.inl`), otherwise it returns the artists list object itself
(`Sum.inr`); `none` models the `None` returned on `KeyError`. -/
def media_artist (d : JellyfinDevice) : Option (String ⊕ List String) :=
  match d.session.NowPlayingItem with
  | none => none
  | some npi =>
    match npi.Artists with
    | none => none
    | some artists =>
      if 1 < artists.length then some (Sum.inl artists.headI)
      else some (Sum.inr artists)

/-- `media_position` property: `int(session['PlayState']['PositionTicks']) / 10000000`,
`None` on `KeyError`. -/
def media_position (d : JellyfinDevice) : Option ℚ :=
  (d.session.PlayState.bind (·.PositionTicks)).map (fun t => (t : ℚ) / 10000000)

/-- `media_runtime` property: `int(session['NowPlayingItem']['RunTimeTicks']) / 10000000`,
`None` on `KeyError`. -/
def media_runtime (d : JellyfinDevice) : Option ℚ :=
  (d.session.NowPlayingItem.bind (·.RunTimeTicks)).map (fun t => (t : ℚ) / 10000000)

/-- Result of `media_percent_played`: a value, `None` (the caught
`TypeError` when position or runtime is `None`), or the uncaught
`ZeroDivisionError` of `pos / 0.0`. -/
inductive PercentResult where
  | val (q : ℚ)
  | noneVal
  | zeroDiv
deriving DecidableEq

/-- `media_percent_played` property (`__init__.py` 319-325, `device.py`
184-190): `(media_position / media_runtime) * 100`, with only
`TypeError` caught.  Python float division by `0.0` raises
`ZeroDivisionError`, modelled by the dedicated constructor. -/
def media_percent_played (d : JellyfinDevice) : PercentResult :=
  match d.media_position, d.media_runtime with
  | some p, some r => if r = 0 then .zeroDiv else .val (p / r * 100)
  | _, _ => .noneVal

end JellyfinDevice

/-! ### `JellyfinClientManager.expo` (`__init__.py` 424-433)

The generator is embedded as the function giving its `k`-th yield: the
generator state is the counter `n`, one yield is one `expoStep`, and
`expoYieldFrom m n k` is the value yielded `k` steps after reaching
state `n`. -/

/-- One loop iteration of `expo`: from counter `n`, the yielded value and
the next counter. -/
def expoStep (max_value : Option Nat) (n : Nat) : Nat × Nat :=
  let a := 2 ^ n
  match max_value with
  | none => (a, n + 1)
  | some m => if a < m then (a, n + 1) else (m, n)

/-- Value of the `k`-th yield of `expo(max_value)` counted from generator
state `n`. -/
def expoYieldFrom (max_value : Option Nat) : Nat → Nat → Nat
  | n, 0 => (expoStep max_value n).1
  | n, k + 1 => expoYieldFrom max_value (expoStep max_value n).2 k

/-- The `k`-th value yielded by `expo(max_value)` (0-indexed). -/
def expoYield (max_value : Option Nat) (k : Nat) : Nat :=
  expoYieldFrom max_value 0 k

/-! ### Binary64 (Python `float`) arithmetic

Python floats are IEEE-754 binary64.  A float is represented here by
the exact rational value it denotes, and `fl` rounds the exact result
of an operation to the nearest binary64 value (ties to even), which is
precisely how each Python float operation behaves.  The integer-level
helpers keep every computation inside `Nat`/`Int` so that concrete
instances evaluate. -/

/-- Number of binary digits of `n` (`0` for `0`).  The first argument
of `nbitsAux` is fuel making the recursion structural; `n` itself always
suffices as fuel. -/
def nbitsAux : Nat → Nat → Nat
  | 0, _ => 0
  | fuel + 1, n => if n = 0 then 0 else nbitsAux fuel (n / 2) + 1

def nbits (n : Nat) : Nat :=
  nbitsAux n n

/-- Whether `n / d < 2 ^ e`, by cross-multiplication. -/
def qltTwoPow (n d : ℕ) (e : ℤ) : Bool :=
  if 0 ≤ e then decide (n < d * 2 ^ e.toNat) else decide (n * 2 ^ (-e).toNat < d)

/-- For positive `n / d`, the unique `e` with `2 ^ e ≤ n / d < 2 ^ (e + 1)`:
`nbits` gives it up to one off, corrected by one comparison. -/
def frexpQ (n d : ℕ) : ℤ :=
  let e0 : ℤ := (nbits n : ℤ) - (nbits d : ℤ)
  if qltTwoPow n d e0 then e0 - 1 else e0

/-- Round the positive rational `n / d` to the nearest binary64 value
(ties to even), as the exact rational that value denotes: the
significand keeps 53 bits at or above `2 ^ (-1022)` and the fixed scale
`2 ^ (-1074)` below it (subnormals).  Overflow to infinity is not
modelled; every quantity in this development is far below `2 ^ 1024`. -/
def roundB64pos (n d : ℕ) : ℚ :=
  let e := frexpQ n d
  let scale : ℤ := if e < -1022 then 1074 else 52 - e
  let nn := n * 2 ^ scale.toNat
  let dd := d * 2 ^ (-scale).toNat
  let m := nn / dd
  let r := nn % dd
  let m2 :=
    if dd < 2 * r then m + 1
    else if 2 * r < dd then m
    else if m % 2 = 0 then m else m + 1
  if 0 ≤ scale then mkRat (m2 : ℤ) (2 ^ scale.toNat)
  else mkRat ((m2 : ℤ) * 2 ^ (-scale).toNat) 1

/-- The binary64 value nearest to `q` (ties to even, sign-symmetric as
IEEE-754 rounding is), as the exact rational it denotes. -/
def fl (q : ℚ) : ℚ :=
  if q.num = 0 then 0
  else if 0 < q.num then roundB64pos q.num.toNat q.den
  else -roundB64pos (-q.num).toNat q.den

/-! ### Transport commands (`__init__.py` 366-397, `device.py` 219-251)

`set_playstate` builds a parameter dict and posts one command
`"Playing/%s" % state` for the device's session id via
`JellyfinClientManager.set_playstate`.  The posted request is embedded
as a `PostedCommand` value. -/

/-- Python `int()` applied to the exact value of a float: truncation
toward zero. -/
def pyInt (q : ℚ) : ℤ :=
  q.num.tdiv q.den

/-- The parameter dict built by `set_playstate`: empty, or
`{'SeekPositionTicks': ..., 'static': 'true'}` for `Seek`. -/
structure PlayParams where
  SeekPositionTicks : Option Int
  static : Option String
deriving DecidableEq

/-- The single command forwarded to the server: session id, the `state`
string interpolated into `"Playing/%s"`, and the parameter dict. -/
structure PostedCommand where
  session_id : Option String
  state : String
  params : PlayParams
deriving DecidableEq

namespace JellyfinDevice

/-- `set_playstate(state, pos=0)`.  `pos` is the exact rational value
of the binary64 `pos` argument; `int(pos * 10000000)` multiplies in
binary64 (the product is rounded by `fl`) and truncates. -/
def set_playstate (d : JellyfinDevice) (state : String) (pos : ℚ) : PostedCommand :=
  let params : PlayParams :=
    if state = "Seek" then
      { SeekPositionTicks := some (pyInt (fl (pos * 10000000))), static := some "true" }
    else
      { SeekPositionTicks := none, static := none }
  { session_id := d.session_id, state := state, params := params }

def media_play (d : JellyfinDevice) : PostedCommand :=
  d.set_playstate "Unpause" 0

def media_pause (d : JellyfinDevice) : PostedCommand :=
  d.set_playstate "Pause" 0

def media_stop (d : JellyfinDevice) : PostedCommand :=
  d.set_playstate "Stop" 0

def media_next (d : JellyfinDevice) : PostedCommand :=
  d.set_playstate "NextTrack" 0

def media_previous (d : JellyfinDevice) : PostedCommand :=
  d.set_playstate "PreviousTrack" 0

def media_seek (d : JellyfinDevice) (position : ℚ) : PostedCommand :=
  d.set_playstate "Seek" position

end JellyfinDevice

/-! ### `login` / `connect` (`__init__.py` 476-530)

The server's answer to `auth.login` is the input: a JSON dictionary
modelled as an association list.  `login` returns `False` exactly when
the answer has no `"AccessToken"` key; otherwise it calls
`authenticate` with the stored credentials (recorded in the
`authenticated` flag) and returns `True`.  `connect` raises
`ConfigEntryNotReady` exactly when `login` returned `False`. -/

structure LoginOutcome where
  success : Bool
  authenticated : Bool
deriving DecidableEq

def login (result : List (String × String)) : LoginOutcome :=
  if (result.lookup "AccessToken").isSome then
    { success := true, authenticated := true }
  else
    { success := false, authenticated := false }

inductive ConnectError where
  | configEntryNotReady
deriving DecidableEq

/-- `connect`: `.ok b` means connect returned normally with the client
authenticated iff `b`; `.error` is the raised `ConfigEntryNotReady`. -/
def connect (result : List (String × String)) : Except ConnectError Bool :=
  let lo := login result
  if lo.success then .ok lo.authenticated else .error .configEntryNotReady

/-! ### `JellyfinClientManager.update_check` (`__init__.py` 638-677)

`existing` is a cached `JellyfinDevice`, `new` the fresh session dict.
`none` models an uncaught `KeyError` (from `existing.state` or from
`new['PlayState']['IsPaused']`). -/

/-- `IsThemeMedia` flag of an optional `NowPlayingItem`; a missing key or
a missing item gives `False`, as the `try/except KeyError` does. -/
def themeFlag (npi : Option NowPlaying) : Bool :=
  match npi with
  | some item => item.IsThemeMedia.getD false
  | none => false

/-- The state `update_check` derives for the new session: `Paused` or
`Playing` from `PlayState['IsPaused']` when a `NowPlayingItem` is
present (`none` when `PlayState` is absent and the code raises),
`Idle` otherwise. -/
def newSessionState (nw : Session) : Option String :=
  match nw.NowPlayingItem with
  | some _ => nw.PlayState.map (fun ps => if ps.IsPaused then STATE_PAUSED else STATE_PLAYING)
  | none => some STATE_IDLE

def update_check (existing : JellyfinDevice) (nw : Session) : Option Bool :=
  match existing.state with
  | none => none
  | some old_state =>
    let old_theme := themeFlag existing.session.NowPlayingItem
    match nw.NowPlayingItem with
    | some npi =>
      match nw.PlayState with
      | none => none
      | some ps =>
        let new_state := if ps.IsPaused then STATE_PAUSED else STATE_PLAYING
        let new_theme := npi.IsThemeMedia.getD false
        some (
          if old_theme || new_theme then false
          else if old_state = STATE_PLAYING ∨ new_state = STATE_PLAYING then true
          else if old_state ≠ new_state then true
          else false)
    | none =>
      some (
        if old_theme || false then false
        else if old_state = STATE_PLAYING ∨ STATE_IDLE = STATE_PLAYING then true
        else if old_state ≠ STATE_IDLE then true
        else false)

/-! ### `JellyfinClientManager.update_device_list` (`__init__.py` 573-636)

The mutable `self._devices` dictionary is an association list with
unique keys kept in insertion order (Python dict order); each callback
invocation is recorded as an `Event`.  An uncaught exception inside the
loop (re-raised by the `except` clause) is `none`. -/

/-- One callback invocation: `_do_new_devices_callback`,
`_do_update_callback(dev_name)` or `_do_stale_devices_callback(dev_name)`. -/
inductive Event where
  | newDevices
  | update (dev : String)
  | stale (dev : String)
deriving DecidableEq

/-- `'{}.{}'.format(device['DeviceId'], device['Client'])`. -/
def dev_name (s : Session) : String :=
  s.DeviceId ++ "." ++ s.Client

/-- In-place overwrite `self._devices[name] = d` for a key already
present (Python keeps the key's position). -/
def setDev (l : List (String × JellyfinDevice)) (name : String) (d : JellyfinDevice) :
    List (String × JellyfinDevice) :=
  l.map (fun p => if p.1 = name then (name, d) else p)

/-- The loop state of `update_device_list`: the devices dict, the
`active_devices` and `new_devices` lists, the `dev_update` flag and the
log of callbacks fired so far. -/
structure UDLState where
  devices : List (String × JellyfinDevice)
  active_devices : List String
  new_devices : List JellyfinDevice
  dev_update : Bool
  events : List Event
deriving DecidableEq

/-- One iteration of the `for device in self._sessions` loop.
`dev_name s` is always appended to `active_devices`; a session with a
fresh key and a foreign `DeviceId` inserts a new active device and
records it in `new_devices`; a known key with a foreign `DeviceId`
fires the new-devices callback when the cached device was inactive
(`dev_update` is then reset), overwrites the entry with the fresh
session marked active, and fires the update callback when
`update_check` said so (`none` when `update_check` raised); sessions
whose `DeviceId` is the configured client id are skipped. -/
def udl_step (cid : String) (st : UDLState) (s : Session) : Option UDLState :=
  match st.devices.lookup (dev_name s) with
  | none =>
    if s.DeviceId ≠ cid then
      some { devices := st.devices ++ [(dev_name s, { session := s, is_active := true })]
             active_devices := st.active_devices ++ [dev_name s]
             new_devices := st.new_devices ++ [{ session := s, is_active := true }]
             dev_update := st.dev_update
             events := st.events }
    else
      some { st with active_devices := st.active_devices ++ [dev_name s] }
  | some d =>
    if s.DeviceId ≠ cid then
      match update_check d s with
      | none => none
      | some doUpd =>
        some { devices := setDev st.devices (dev_name s) { session := s, is_active := true }
               active_devices := st.active_devices ++ [dev_name s]
               new_devices := st.new_devices
               dev_update :=
                 if st.dev_update || !d.is_active then false else st.dev_update || !d.is_active
               events := st.events
                 ++ (if st.dev_update || !d.is_active then [Event.newDevices] else [])
                 ++ (if doUpd then [Event.update (dev_name s)] else []) }
    else
      some { st with active_devices := st.active_devices ++ [dev_name s] }

/-- The session loop, run left to right. -/
def udl_run (cid : String) : List Session → UDLState → Option UDLState
  | [], st => some st
  | s :: rest, st =>
    match udl_step cid st s with
    | none => none
    | some st' => udl_run cid rest st'

/-- The `for dev_id in self._devices` stale-marking loop: entries whose
key is not in `active` and which are still active are switched off and
fire the update and stale callbacks, in dict order. -/
def mark_stale (active : List String) :
    List (String × JellyfinDevice) → List (String × JellyfinDevice) × List Event
  | [] => ([], [])
  | (k, d) :: rest =>
    let tail := mark_stale active rest
    if k ∉ active ∧ d.is_active then
      ((k, { session := d.session, is_active := false }) :: tail.1,
        Event.update k :: Event.stale k :: tail.2)
    else
      ((k, d) :: tail.1, tail.2)

/-- `update_device_list`, from the configured client id, the current
`self._sessions` and the current devices dict, to the new devices dict
and the list of callbacks fired (or `none` on an uncaught exception).
A `None` session list only logs an error and returns. -/
def update_device_list (cid : String) (sessions : Option (List Session))
    (devices : List (String × JellyfinDevice)) :
    Option (List (String × JellyfinDevice) × List Event) :=
  match sessions with
  | none => some (devices, [])
  | some ss =>
    match udl_run cid ss
        { devices := devices, active_devices := [], new_devices := [],
          dev_update := false, events := [] } with
    | none => none
    | some st =>
      some ((mark_stale st.active_devices st.devices).1,
        st.events ++ (mark_stale st.active_devices st.devices).2
          ++ (if st.new_devices.isEmpty then [] else [Event.newDevices]))

/-! ### `media_browser.py`

The Home Assistant media-player constants are external to the
repository; they are embedded with their published string values.
The vendor REST API is an explicit parameter (`JFApi`).  Modelled from
the spec: the spec describes "a media-browsing tree built by pagination
over a vendor REST API", so the vendor `/Items` endpoint is modelled as
paged: it holds a full result set per query and serves at most
`pageSize` items per request. -/

def MEDIA_CLASS_DIRECTORY : String := "directory"

def MEDIA_TYPE_MOVIE : String := "movie"

def MEDIA_TYPE_TVSHOW : String := "tvshow"

def MEDIA_TYPE_SEASON : String := "season"

def MEDIA_TYPE_EPISODE : String := "episode"

def MEDIA_TYPE_ALBUM : String := "album"

def MEDIA_TYPE_TRACK : String := "track"

def MEDIA_TYPE_ARTIST : String := "artist"

def MEDIA_TYPE_PLAYLIST : String := "playlist"

/-- The Jellyfin item `Type` strings handled by the `media_browser.py`
switchers (any other string raises `KeyError` in all three). -/
inductive JFType where
  | Movie | Series | Season | Episode | Music | Audio
  | BoxSet | Folder | CollectionFolder | Playlist | MusicArtist | MusicAlbum
deriving DecidableEq

/-- `Type2Mediatype` switcher (`media_browser.py` 60-76). -/
def Type2Mediatype : JFType → String
  | .Movie => MEDIA_TYPE_MOVIE
  | .Series => MEDIA_TYPE_TVSHOW
  | .Season => MEDIA_TYPE_SEASON
  | .Episode => MEDIA_TYPE_EPISODE
  | .Music => MEDIA_TYPE_ALBUM
  | .Audio => MEDIA_TYPE_TRACK
  | .BoxSet => MEDIA_CLASS_DIRECTORY
  | .Folder => MEDIA_CLASS_DIRECTORY
  | .CollectionFolder => MEDIA_CLASS_DIRECTORY
  | .Playlist => MEDIA_CLASS_DIRECTORY
  | .MusicArtist => MEDIA_TYPE_ARTIST
  | .MusicAlbum => MEDIA_TYPE_ALBUM

/-- `Type2Mediaclass` switcher (`media_browser.py` 78-93); the
`MEDIA_CLASS_*` constants share the `MEDIA_TYPE_*` values except
`tv_show`. -/
def Type2Mediaclass : JFType → String
  | .Movie => "movie"
  | .Series => "tv_show"
  | .Season => "season"
  | .Episode => "episode"
  | .Music => MEDIA_CLASS_DIRECTORY
  | .Audio => "track"
  | .BoxSet => MEDIA_CLASS_DIRECTORY
  | .Folder => MEDIA_CLASS_DIRECTORY
  | .CollectionFolder => MEDIA_CLASS_DIRECTORY
  | .Playlist => MEDIA_CLASS_DIRECTORY
  | .MusicArtist => "artist"
  | .MusicAlbum => "album"

/-- `IsPlayable` switcher (`media_browser.py` 95-110). -/
def IsPlayable : JFType → Bool
  | .Movie => true
  | .Series => true
  | .Season => true
  | .Episode => true
  | .Music => false
  | .Audio => true
  | .BoxSet => true
  | .Folder => false
  | .CollectionFolder => false
  | .Playlist => true
  | .MusicArtist => true
  | .MusicAlbum => true

/-- A library item as returned by the `/Items` endpoint (`Type` is
`itemType` since `Type` is reserved in Lean). -/
structure Item where
  Id : String
  Name : String
  itemType : JFType
  IsFolder : Bool
deriving DecidableEq

/-- The query dict passed to `get_items`: `{"ParentId": ...}` or
`{"Id": ...}`. -/
structure ItemsQuery where
  ParentId : Option String
  Id : Option String
deriving DecidableEq

/-- Modelled from the spec: the vendor REST API behind
`jf_client.jellyfin.users("/Items", "GET", query)` (absent from `src/`;
only its caller `JellyfinClientManager.get_items` is in the
repository).  Per the spec it is a paged endpoint: `allUnder q` is the
full result set for query `q` and one request serves at most `pageSize`
of it.  `itemById` backs `get_item`, `artworkUrl` backs
`get_artwork_url`. -/
structure JFApi where
  allUnder : Option ItemsQuery → List Item
  pageSize : Nat
  itemById : String → Item
  artworkUrl : String → String

/-- One REST response page for one request. -/
def JFApi.respond (api : JFApi) (q : Option ItemsQuery) : List Item :=
  (api.allUnder q).take api.pageSize

/-- `JellyfinClientManager.get_items` (`__init__.py` 698-701): a single
request, returning `response["Items"]` of that one response. -/
def get_items (api : JFApi) (q : Option ItemsQuery) : List Item :=
  api.respond q

/-- A child `BrowseMedia` appended by the loop in `library_items`; these
are always constructed with `children=[]`, so no recursion is needed. -/
structure ChildMedia where
  media_class : String
  media_content_id : String
  media_content_type : String
  title : String
  can_play : Bool
  can_expand : Bool
  thumbnail : Option String
deriving DecidableEq

/-- The root `BrowseMedia` node returned by `library_items`. -/
structure BrowseNode where
  media_class : String
  media_content_id : String
  media_content_type : String
  title : String
  can_play : Bool
  can_expand : Bool
  children : List ChildMedia
  thumbnail : Option String
deriving DecidableEq

/-- One `library_info.children.append(BrowseMedia(...))` of the item
loop; the two textually separate append branches differ only in
`can_expand`, which equals `item["IsFolder"]`. -/
def mkChildMedia (api : JFApi) (item : Item) : ChildMedia :=
  { media_class := Type2Mediaclass item.itemType
    media_content_id := item.Id
    media_content_type := Type2Mediatype item.itemType
    title := item.Name
    can_play := IsPlayable item.itemType
    can_expand := item.IsFolder
    thumbnail := some (api.artworkUrl item.Id) }

/-- The expandable-container content types of the second branch
(`media_browser.py` line 132). -/
def containerTypes : List String :=
  [MEDIA_CLASS_DIRECTORY, MEDIA_TYPE_ARTIST, MEDIA_TYPE_ALBUM,
    MEDIA_TYPE_PLAYLIST, MEDIA_TYPE_TVSHOW, MEDIA_TYPE_SEASON]

/-- The first branch of `library_items` (`media_content_type` is `None`
or `"library"`): root node plus the one `get_items` request issued. -/
def libraryRootBranch (api : JFApi) : BrowseNode × List (Option ItemsQuery) :=
  let q : Option ItemsQuery := none
  let items := get_items api q
  ({ media_class := MEDIA_CLASS_DIRECTORY
     media_content_id := "library"
     media_content_type := "library"
     title := "Media Library"
     can_play := false
     can_expand := true
     children := items.map (mkChildMedia api)
     thumbnail := none }, [q])

/-- `library_items` (`media_browser.py` 112-197), returning the built
node together with the log of `get_items` requests issued.  In the
final (non-container) branch the Python trailing-comma slips that wrap
`media_content_id` and `can_play` in 1-tuples are modelled by the plain
values. -/
def library_items (api : JFApi) (media_content_type : Option String)
    (media_content_id : String) : BrowseNode × List (Option ItemsQuery) :=
  match media_content_type with
  | none => libraryRootBranch api
  | some t =>
    if t = "library" then
      libraryRootBranch api
    else if t ∈ containerTypes then
      let q : Option ItemsQuery := some { ParentId := some media_content_id, Id := none }
      let parent_item := api.itemById media_content_id
      let items := get_items api q
      ({ media_class := t
         media_content_id := media_content_id
         media_content_type := t
         title := parent_item.Name
         can_play := IsPlayable parent_item.itemType
         can_expand := true
         children := items.map (mkChildMedia api)
         thumbnail := some (api.artworkUrl media_content_id) }, [q])
    else
      let q : Option ItemsQuery := some { ParentId := none, Id := some media_content_id }
      let items := get_items api q
      let base : BrowseNode :=
        { media_class := MEDIA_CLASS_DIRECTORY
          media_content_id := media_content_id
          media_content_type := t
          title := ""
          can_play := true
          can_expand := false
          children := []
          thumbnail := some (api.artworkUrl media_content_id) }
      (match items with
       | [] => base
       | item :: _ =>
         { base with
            title := item.Name
            media_content_id := item.Id
            media_content_type := Type2Mediatype item.itemType
            media_class := Type2Mediaclass item.itemType
            can_expand := false
            can_play := IsPlayable item.itemType }, [q])

/-- A concrete session (device `"a"`, client `"b"`) for witnesses. -/
def sessW : Session :=
  { Id := none, DeviceId := "a", Client := "b", NowPlayingItem := none, PlayState := none }

/-- A concrete session (device `"x"`, client `"y"`) for witnesses. -/
def sessW3 : Session :=
  { Id := none, DeviceId := "x", Client := "y", NowPlayingItem := none, PlayState := none }

/-- A concrete active cached device for witnesses. -/
def devW3 : JellyfinDevice := { session := sessW3, is_active := true }

/-- A concrete device for the seek counterexample. -/
def devW6 : JellyfinDevice := { session := sessW, is_active := true }

/-- Concrete paged api for C8: two items under parent `"p"`, one item
per response page. -/
def apiCE : JFApi :=
  { allUnder := fun _ => [⟨"i1", "N1", .Movie, false⟩, ⟨"i2", "N2", .Movie, false⟩]
    pageSize := 1
    itemById := fun _ => ⟨"p", "Parent", .Folder, true⟩
    artworkUrl := fun _ => "art" }

/-! ## Helper lemmas -/

theorem expoYieldFrom_none (k n : Nat) : expoYieldFrom none n k = 2 ^ (n + k) := by
  induction k generalizing n with
  | zero => simp [expoYieldFrom, expoStep]
  | succ k ih =>
    show expoYieldFrom none (n + 1) k = _
    rw [ih]
    congr 1
    omega

theorem expoYieldFrom_some (k n m : Nat) :
    expoYieldFrom (some m) n k = if 2 ^ (n + k) < m then 2 ^ (n + k) else m := by
  induction k generalizing n with
  | zero =>
    simp only [expoYieldFrom, expoStep, Nat.add_zero]
    split <;> simp
  | succ k ih =>
    show expoYieldFrom (some m) (expoStep (some m) n).2 k = _
    by_cases h : 2 ^ n < m
    · have hstep : (expoStep (some m) n).2 = n + 1 := by
        simp [expoStep, h]
      rw [hstep, ih]
      have : n + 1 + k = n + (k + 1) := by omega
      rw [this]
    · have hstep : (expoStep (some m) n).2 = n := by
        simp [expoStep, h]
      have hge : ¬ 2 ^ (n + k) < m := by
        have : 2 ^ n ≤ 2 ^ (n + k) := Nat.pow_le_pow_right (by norm_num) (by omega)
        omega
      have hge' : ¬ 2 ^ (n + (k + 1)) < m := by
        have : 2 ^ n ≤ 2 ^ (n + (k + 1)) := Nat.pow_le_pow_right (by norm_num) (by omega)
        omega
      rw [hstep, ih, if_neg hge, if_neg hge']

theorem setDev_cons (a : String) (b : JellyfinDevice) (l : List (String × JellyfinDevice))
    (n : String) (d : JellyfinDevice) :
    setDev ((a, b) :: l) n d = (if a = n then (n, d) else (a, b)) :: setDev l n d := rfl

theorem lookup_append_singleton_ne {k n : String} {d : JellyfinDevice}
    (l : List (String × JellyfinDevice)) (h : k ≠ n) :
    (l ++ [(n, d)]).lookup k = l.lookup k := by
  induction l with
  | nil =>
    have hkn : (k == n) = false := beq_eq_false_iff_ne.mpr h
    simp [List.lookup, hkn]
  | cons p l ih =>
    cases hka : k == p.1 <;>
      simp [List.lookup, hka, ih]

theorem lookup_append_singleton_self {k : String} {d : JellyfinDevice}
    (l : List (String × JellyfinDevice)) (h : l.lookup k = none) :
    (l ++ [(k, d)]).lookup k = some d := by
  induction l with
  | nil => simp [List.lookup]
  | cons p l ih =>
    cases hka : k == p.1 with
    | true => simp [List.lookup, hka] at h
    | false =>
      simp only [List.lookup, hka] at h
      simp [List.lookup, hka, ih h]

theorem lookup_append_left_isSome {k : String} (l l2 : List (String × JellyfinDevice))
    (h : (l.lookup k).isSome) : (l ++ l2).lookup k = l.lookup k := by
  induction l with
  | nil => simp at h
  | cons p l ih =>
    cases hka : k == p.1 with
    | true => simp [List.lookup, hka]
    | false =>
      simp only [List.lookup, hka] at h ⊢
      exact ih h

theorem lookup_setDev_ne {k n : String} {d : JellyfinDevice}
    (l : List (String × JellyfinDevice)) (h : k ≠ n) :
    (setDev l n d).lookup k = l.lookup k := by
  induction l with
  | nil => rfl
  | cons p l ih =>
    obtain ⟨a, b⟩ := p
    rw [setDev_cons]
    by_cases hp : a = n
    · rw [if_pos hp]
      have hkn : (k == n) = false := beq_eq_false_iff_ne.mpr h
      have hka : (k == a) = false := beq_eq_false_iff_ne.mpr (fun hh => h (hh.trans hp))
      simp [List.lookup, hkn, hka, ih]
    · rw [if_neg hp]
      cases hka : k == a <;> simp [List.lookup, hka, ih]

theorem lookup_setDev_eq (l : List (String × JellyfinDevice)) (n : String) (d : JellyfinDevice) :
    (setDev l n d).lookup n = (l.lookup n).map (fun _ => d) := by
  induction l with
  | nil => rfl
  | cons p l ih =>
    obtain ⟨a, b⟩ := p
    rw [setDev_cons]
    by_cases hp : a = n
    · rw [if_pos hp]
      have hna : (n == a) = true := beq_iff_eq.mpr hp.symm
      simp [List.lookup, hna]
    · rw [if_neg hp]
      have hna : (n == a) = false := beq_eq_false_iff_ne.mpr (fun hh => hp hh.symm)
      simp [List.lookup, hna, ih]

theorem lookup_setDev_isSome {k n : String} {d : JellyfinDevice}
    (l : List (String × JellyfinDevice)) (h : (l.lookup k).isSome) :
    ((setDev l n d).lookup k).isSome := by
  by_cases hk : k = n
  · subst hk
    rw [lookup_setDev_eq]
    simpa using h
  · rwa [lookup_setDev_ne l hk]

/-- Evaluation of the seek path at position `21 / 10 ^ 7` seconds: the
caller's float is `fl (21 / 10 ^ 7)`, slightly below the exact value,
the binary64 product with `10 ^ 7` lands just below `21`, and `int()`
truncates it to `20`. -/
theorem seek21_eval (d : JellyfinDevice) :
    (d.media_seek (fl ((21 : ℚ) / 10000000))).params.SeekPositionTicks = some 20 := by
  have h0 : (21 : ℚ) / 10000000 = mkRat 21 10000000 := by
    rw [Rat.mkRat_eq_divInt, Rat.divInt_eq_div]
    norm_num
  have hA : fl (mkRat 21 10000000) = mkRat 4958484807013127 2361183241434822606848 := by
    decide
  have hB : (mkRat 4958484807013127 2361183241434822606848) * (10000000 : ℚ)
      = mkRat 387381625547900546875 18446744073709551616 := by
    rw [Rat.mkRat_eq_divInt, Rat.mkRat_eq_divInt, Rat.divInt_eq_div, Rat.divInt_eq_div]
    norm_num
  have hC : fl (mkRat 387381625547900546875 18446744073709551616)
      = mkRat 5910974510923775 281474976710656 := by
    decide
  have hD : pyInt (mkRat 5910974510923775 281474976710656) = 20 := by decide
  show some (pyInt (fl (fl ((21 : ℚ) / 10000000) * 10000000))) = some 20
  rw [h0, hA, hB, hC, hD]

theorem udl_step_props (cid : String) (st st' : UDLState) (s : Session)
    (h : udl_step cid st s = some st') :
    st'.active_devices = st.active_devices ++ [dev_name s] ∧
    (∀ k, k ≠ dev_name s → st'.devices.lookup k = st.devices.lookup k) ∧
    (∀ k, (st.devices.lookup k).isSome → (st'.devices.lookup k).isSome) ∧
    (st.new_devices ≠ [] → st'.new_devices ≠ []) := by
  unfold udl_step at h
  split at h
  · split at h
    · injection h with h2
      subst h2
      refine ⟨rfl, fun k hk => lookup_append_singleton_ne _ hk, fun k hk => ?_, fun hne => ?_⟩
      · rw [lookup_append_left_isSome _ _ hk]
        exact hk
      · simp
    · injection h with h2
      subst h2
      exact ⟨rfl, fun k _ => rfl, fun k hk => hk, fun hne => hne⟩
  · split at h
    · split at h
      · exact Option.noConfusion h
      · injection h with h2
        subst h2
        exact ⟨rfl, fun k hk => lookup_setDev_ne _ hk,
          fun k hk => lookup_setDev_isSome _ hk, fun hne => hne⟩
    · injection h with h2
      subst h2
      exact ⟨rfl, fun k _ => rfl, fun k hk => hk, fun hne => hne⟩

theorem udl_step_insert (cid : String) (st : UDLState) (s : Session)
    (hl : st.devices.lookup (dev_name s) = none) (hc : s.DeviceId ≠ cid) :
    udl_step cid st s =
      some { devices := st.devices ++ [(dev_name s, { session := s, is_active := true })]
             active_devices := st.active_devices ++ [dev_name s]
             new_devices := st.new_devices ++ [{ session := s, is_active := true }]
             dev_update := st.dev_update
             events := st.events } := by
  unfold udl_step
  rw [hl]
  simp [hc]

theorem udl_run_props (cid : String) (ss : List Session) (st st' : UDLState)
    (h : udl_run cid ss st = some st') :
    st'.active_devices = st.active_devices ++ ss.map dev_name ∧
    (∀ k, k ∉ ss.map dev_name → st'.devices.lookup k = st.devices.lookup k) ∧
    (∀ k, (st.devices.lookup k).isSome → (st'.devices.lookup k).isSome) ∧
    (st.new_devices ≠ [] → st'.new_devices ≠ []) := by
  induction ss generalizing st with
  | nil =>
    unfold udl_run at h
    injection h with h2
    subst h2
    exact ⟨by simp, fun k _ => rfl, fun k hk => hk, fun hn => hn⟩
  | cons s rest ih =>
    unfold udl_run at h
    cases hstep : udl_step cid st s <;> rw [hstep] at h
    · exact Option.noConfusion h
    · rename_i st1
      obtain ⟨ha, hne, hsome, hnew⟩ := udl_step_props cid st st1 s hstep
      obtain ⟨ha2, hne2, hsome2, hnew2⟩ := ih st1 h
      refine ⟨?_, ?_, fun k hk => hsome2 k (hsome k hk), fun hn => hnew2 (hnew hn)⟩
      · rw [ha2, ha]
        simp
      · intro k hk
        have hk1 : k ≠ dev_name s := fun hh => hk (by simp [hh])
        have hk2 : k ∉ rest.map dev_name := fun hh => hk (by simp [hh])
        rw [hne2 k hk2, hne k hk1]

theorem udl_run_append_some (cid : String) (l1 l2 : List Session) (st stF : UDLState)
    (h : udl_run cid (l1 ++ l2) st = some stF) :
    ∃ st1, udl_run cid l1 st = some st1 ∧ udl_run cid l2 st1 = some stF := by
  induction l1 generalizing st with
  | nil => exact ⟨st, rfl, h⟩
  | cons a rest ih =>
    rw [List.cons_append] at h
    unfold udl_run at h
    cases hstep : udl_step cid st a <;> rw [hstep] at h
    · exact Option.noConfusion h
    · rename_i stm
      obtain ⟨st1, hh1, hh2⟩ := ih stm h
      refine ⟨st1, ?_, hh2⟩
      unfold udl_run
      rw [hstep]
      exact hh1

theorem mark_stale_lookup (active : List String) (l : List (String × JellyfinDevice))
    (k : String) :
    ((mark_stale active l).1).lookup k =
      (l.lookup k).map
        (fun d => if k ∉ active ∧ d.is_active then { session := d.session, is_active := false }
          else d) := by
  induction l with
  | nil => rfl
  | cons p l ih =>
    obtain ⟨a, b⟩ := p
    by_cases hc : a ∉ active ∧ b.is_active
    · simp only [mark_stale, if_pos hc]
      cases hka : k == a with
      | true =>
        have hk : k = a := beq_iff_eq.mp hka
        subst hk
        simp [List.lookup, hc]
      | false =>
        simp [List.lookup, hka, ih]
    · simp only [mark_stale, if_neg hc]
      cases hka : k == a with
      | true =>
        have hk : k = a := beq_iff_eq.mp hka
        subst hk
        simp [List.lookup, hc]
      | false =>
        simp [List.lookup, hka, ih]

theorem mark_stale_events (active : List String) (l : List (String × JellyfinDevice))
    (k : String) (d : JellyfinDevice)
    (hl : l.lookup k = some d) (hact : k ∉ active) (hd : d.is_active = true) :
    Event.update k ∈ (mark_stale active l).2 ∧ Event.stale k ∈ (mark_stale active l).2 := by
  induction l with
  | nil => simp [List.lookup] at hl
  | cons p l ih =>
    obtain ⟨a, b⟩ := p
    cases hka : k == a with
    | true =>
      have hk : k = a := beq_iff_eq.mp hka
      subst hk
      simp only [List.lookup, beq_self_eq_true, Option.some_inj] at hl
      subst hl
      have hc : k ∉ active ∧ b.is_active := ⟨hact, hd⟩
      simp [mark_stale, if_pos hc]
    | false =>
      have hl2 : l.lookup k = some d := by
        simpa [List.lookup, hka] using hl
      obtain ⟨h1, h2⟩ := ih hl2
      by_cases hc : a ∉ active ∧ b.is_active <;>
        simp [mark_stale, hc, h1, h2]

/-! ## Claims -/

/-- C1: for every positive cap `m`, `expo(m)` yields `2^k` at index `k`
as long as `2^k < m`, yields `m` at every index `k` with `2^k ≥ m`, and
with no cap it yields `2^k` at every index `k`. -/
theorem expo_backoff_spec (m k : Nat) (_hm : 0 < m) :
    (2 ^ k < m → expoYield (some m) k = 2 ^ k) ∧
    (m ≤ 2 ^ k → expoYield (some m) k = m) ∧
    expoYield none k = 2 ^ k := by
  have hs := expoYieldFrom_some k 0 m
  have hn := expoYieldFrom_none k 0
  rw [Nat.zero_add] at hs hn
  refine ⟨fun h => ?_, fun h => ?_, hn⟩
  · rw [expoYield, hs, if_pos h]
  · rw [expoYield, hs, if_neg (by omega)]

theorem expo_backoff_spec_witness :
    expoYield (some 100) 3 = 8 ∧ expoYield (some 100) 7 = 100 ∧ expoYield none 5 = 32 :=
  ⟨(expo_backoff_spec 100 3 (by norm_num)).1 (by norm_num),
    (expo_backoff_spec 100 7 (by norm_num)).2.1 (by norm_num),
    (expo_backoff_spec 100 5 (by norm_num)).2.2⟩

/-- C4: the `state` property is `Off` for an inactive device, and for an
active one it is `Paused`/`Playing` according to `PlayState.IsPaused`
when a `NowPlayingItem` is present, `Idle` when none is. -/
theorem device_state_spec (d : JellyfinDevice) :
    (d.is_active = false → d.state = some STATE_OFF) ∧
    (d.is_active = true → d.session.NowPlayingItem = none → d.state = some STATE_IDLE) ∧
    (∀ npi ps, d.is_active = true → d.session.NowPlayingItem = some npi →
      d.session.PlayState = some ps →
      d.state = some (if ps.IsPaused then STATE_PAUSED else STATE_PLAYING)) := by
  refine ⟨fun h => ?_, fun h h2 => ?_, fun npi ps h h2 h3 => ?_⟩
  · simp [JellyfinDevice.state, h]
  · simp [JellyfinDevice.state, h, h2]
  · simp [JellyfinDevice.state, h, h2, h3]

theorem device_state_spec_witness :
    JellyfinDevice.state
        { session :=
            { Id := none, DeviceId := "dev", Client := "cl",
              NowPlayingItem := some { IsThemeMedia := none, Artists := none, RunTimeTicks := none },
              PlayState := some { IsPaused := true, PositionTicks := none } },
          is_active := true } = some STATE_PAUSED := by
  have h := (device_state_spec
    { session :=
        { Id := none, DeviceId := "dev", Client := "cl",
          NowPlayingItem := some { IsThemeMedia := none, Artists := none, RunTimeTicks := none },
          PlayState := some { IsPaused := true, PositionTicks := none } },
      is_active := true }).2.2
    { IsThemeMedia := none, Artists := none, RunTimeTicks := none }
    { IsPaused := true, PositionTicks := none } rfl rfl rfl
  simpa using h

/-- C5: `update_check` returns `False` whenever either session's
`NowPlayingItem` carries the `IsThemeMedia` flag, and otherwise returns
`True` iff the existing device's state is `Playing`, or the new
session's derived state is `Playing`, or the two states differ. -/
theorem update_check_spec (ex : JellyfinDevice) (nw : Session) (ost nst : String)
    (hold : ex.state = some ost) (hnew : newSessionState nw = some nst) :
    update_check ex nw = some (
      if themeFlag ex.session.NowPlayingItem || themeFlag nw.NowPlayingItem then false
      else if ost = STATE_PLAYING ∨ nst = STATE_PLAYING then true
      else if ost ≠ nst then true
      else false) := by
  unfold update_check
  rw [hold]
  unfold newSessionState at hnew
  cases hnpi : nw.NowPlayingItem with
  | none =>
    rw [hnpi] at hnew
    simp only [Option.some_inj] at hnew
    subst hnew
    simp [themeFlag, STATE_IDLE, STATE_PLAYING]
  | some npi =>
    rw [hnpi] at hnew
    cases hps : nw.PlayState with
    | none => rw [hps] at hnew; simp at hnew
    | some ps =>
      rw [hps] at hnew
      simp only [Option.map_some', Option.some_inj] at hnew
      subst hnew
      simp [themeFlag]

theorem update_check_spec_witness :
    update_check
        { session :=
            { Id := none, DeviceId := "d", Client := "c",
              NowPlayingItem := none, PlayState := none },
          is_active := true }
        { Id := none, DeviceId := "d", Client := "c",
          NowPlayingItem := some { IsThemeMedia := none, Artists := none, RunTimeTicks := none },
          PlayState := some { IsPaused := false, PositionTicks := none } } = some true := by
  have h := update_check_spec
    { session :=
        { Id := none, DeviceId := "d", Client := "c",
          NowPlayingItem := none, PlayState := none },
      is_active := true }
    { Id := none, DeviceId := "d", Client := "c",
      NowPlayingItem := some { IsThemeMedia := none, Artists := none, RunTimeTicks := none },
      PlayState := some { IsPaused := false, PositionTicks := none } }
    STATE_IDLE STATE_PLAYING rfl rfl
  simpa using h

/-- C6 (counterexample): it is not the case that a position of
`t / 10000000` seconds is forwarded as exactly `t` ticks: at `t = 21`
the caller's float position is `fl (21 / 10 ^ 7)`, and the binary64
product with `10 ^ 7` truncates to `20` ticks. -/
theorem transport_seek_counterexample :
    ¬ (∀ (d : JellyfinDevice) (t : ℤ),
        (d.media_seek (fl ((t : ℚ) / 10000000))).params.SeekPositionTicks = some t) := by
  intro h
  have h21 := h devW6 21
  have hc : ((21 : ℤ) : ℚ) = (21 : ℚ) := by norm_num
  rw [hc, seek21_eval devW6] at h21
  exact absurd h21 (by decide)

/-- C6 (amended): each transport helper forwards exactly one command
with the stated name and an empty parameter dict, except `media_seek`,
which sends `Seek` with `SeekPositionTicks = int(position * 10000000)`
computed in binary64 float arithmetic; the tick round-trip is not
exact: a position of `21 / 10000000` seconds is forwarded as `20`
ticks. -/
theorem transport_commands_spec (d : JellyfinDevice) (position : ℚ) :
    d.media_play = ⟨d.session_id, "Unpause", ⟨none, none⟩⟩ ∧
    d.media_pause = ⟨d.session_id, "Pause", ⟨none, none⟩⟩ ∧
    d.media_stop = ⟨d.session_id, "Stop", ⟨none, none⟩⟩ ∧
    d.media_next = ⟨d.session_id, "NextTrack", ⟨none, none⟩⟩ ∧
    d.media_previous = ⟨d.session_id, "PreviousTrack", ⟨none, none⟩⟩ ∧
    d.media_seek position =
      ⟨d.session_id, "Seek", ⟨some (pyInt (fl (position * 10000000))), some "true"⟩⟩ ∧
    (d.media_seek (fl ((21 : ℚ) / 10000000))).params.SeekPositionTicks = some 20 :=
  ⟨rfl, rfl, rfl, rfl, rfl, rfl, seek21_eval d⟩

/-- C7: `connect` raises `ConfigEntryNotReady` exactly when the login
response has no `AccessToken` key, and with an `AccessToken` it returns
normally with the client authenticated. -/
theorem connect_spec (result : List (String × String)) :
    (connect result = .error .configEntryNotReady ↔ result.lookup "AccessToken" = none) ∧
    ((result.lookup "AccessToken").isSome → connect result = .ok true) := by
  unfold connect login
  cases h : result.lookup "AccessToken" <;> simp [h]

theorem connect_spec_witness :
    connect [("AccessToken", "tok")] = .ok true ∧
    connect [] = .error .configEntryNotReady :=
  ⟨(connect_spec [("AccessToken", "tok")]).2 rfl,
    (connect_spec []).1.mpr rfl⟩

/-- C9: with an `Artists` list present, `media_artist` returns the first
artist string only when the list has more than one element; with one or
zero elements it returns the list object itself; with the key missing it
returns `None`. -/
theorem media_artist_spec (d : JellyfinDevice) :
    (∀ npi artists, d.session.NowPlayingItem = some npi → npi.Artists = some artists →
      ((1 < artists.length → d.media_artist = some (Sum.inl artists.headI)) ∧
        (artists.length ≤ 1 → d.media_artist = some (Sum.inr artists)))) ∧
    (d.session.NowPlayingItem.bind NowPlaying.Artists = none → d.media_artist = none) := by
  constructor
  · intro npi artists h1 h2
    constructor <;> intro hl
    · simp [JellyfinDevice.media_artist, h1, h2, hl]
    · have hnl : ¬ 1 < artists.length := by omega
      simp [JellyfinDevice.media_artist, h1, h2, hnl]
  · intro h
    cases hnpi : d.session.NowPlayingItem with
    | none => simp [JellyfinDevice.media_artist, hnpi]
    | some npi =>
      rw [hnpi] at h
      simp only [Option.some_bind] at h
      simp [JellyfinDevice.media_artist, hnpi, h]

theorem media_artist_spec_witness :
    JellyfinDevice.media_artist
        { session :=
            { Id := none, DeviceId := "d", Client := "c",
              NowPlayingItem := some
                { IsThemeMedia := none, Artists := some ["a", "b"], RunTimeTicks := none },
              PlayState := none },
          is_active := true } = some (Sum.inl "a") := by
  have h := ((media_artist_spec
    { session :=
        { Id := none, DeviceId := "d", Client := "c",
          NowPlayingItem := some
            { IsThemeMedia := none, Artists := some ["a", "b"], RunTimeTicks := none },
          PlayState := none },
      is_active := true }).1
    { IsThemeMedia := none, Artists := some ["a", "b"], RunTimeTicks := none }
    ["a", "b"] rfl rfl).1 (by norm_num)
  simpa using h

/-- C10: `media_percent_played` returns `(position / runtime) * 100`,
returns `None` when either of them is `None`, and raises
`ZeroDivisionError` when `PositionTicks` is present and `RunTimeTicks`
equals 0. -/
theorem media_percent_played_spec (d : JellyfinDevice) :
    (∀ p r, d.media_position = some p → d.media_runtime = some r → r ≠ 0 →
      d.media_percent_played = .val (p / r * 100)) ∧
    ((d.media_position = none ∨ d.media_runtime = none) →
      d.media_percent_played = .noneVal) ∧
    (∀ ps npi t, d.session.PlayState = some ps → ps.PositionTicks = some t →
      d.session.NowPlayingItem = some npi → npi.RunTimeTicks = some 0 →
      d.media_percent_played = .zeroDiv) := by
  refine ⟨fun p r h1 h2 hr => ?_, fun h => ?_, fun ps npi t h1 h2 h3 h4 => ?_⟩
  · simp [JellyfinDevice.media_percent_played, h1, h2, hr]
  · rcases h with h | h
    · unfold JellyfinDevice.media_percent_played
      rw [h]
    · unfold JellyfinDevice.media_percent_played
      rw [h]
      cases hp : d.media_position <;> rfl
  · simp [JellyfinDevice.media_percent_played, JellyfinDevice.media_position,
      JellyfinDevice.media_runtime, h1, h2, h3, h4]

theorem media_percent_played_spec_witness :
    JellyfinDevice.media_percent_played
        { session :=
            { Id := none, DeviceId := "d", Client := "c",
              NowPlayingItem := some
                { IsThemeMedia := none, Artists := none, RunTimeTicks := some 0 },
              PlayState := some { IsPaused := false, PositionTicks := some 42 } },
          is_active := true } = .zeroDiv :=
  (media_percent_played_spec
    { session :=
        { Id := none, DeviceId := "d", Client := "c",
          NowPlayingItem := some
            { IsThemeMedia := none, Artists := none, RunTimeTicks := some 0 },
          PlayState := some { IsPaused := false, PositionTicks := some 42 } },
      is_active := true }).2.2
    { IsPaused := false, PositionTicks := some 42 }
    { IsThemeMedia := none, Artists := none, RunTimeTicks := some 0 }
    42 rfl rfl rfl rfl

/-- C8 (counterexample): it is not the case that for every expandable
container node the children cover every item under the requested
container; with a result set of two items and a one-item page,
`library_items` retrieves only the first page. -/
theorem library_items_pagination_counterexample :
    ¬ (∀ (api : JFApi) (t mcid : String), t ∈ containerTypes →
        (library_items api (some t) mcid).1.children.map ChildMedia.media_content_id
          = (api.allUnder (some { ParentId := some mcid, Id := none })).map Item.Id) := by
  intro h
  have h2 := h apiCE MEDIA_CLASS_DIRECTORY "p" (by decide)
  have hL : (library_items apiCE (some MEDIA_CLASS_DIRECTORY) "p").1.children.map
      ChildMedia.media_content_id = ["i1"] := rfl
  have hR : (apiCE.allUnder (some { ParentId := some "p", Id := none })).map Item.Id
      = ["i1", "i2"] := rfl
  rw [hL, hR] at h2
  exact absurd h2 (by decide)

/-- C8 (amended): for every expandable container node, `library_items`
issues exactly one unpaged item request and appends each item of that
single response page as a child; it never advances through the result
set, so items beyond the first response page are not retrieved. -/
theorem library_items_single_request (api : JFApi) (t mcid : String)
    (ht : t ∈ containerTypes) :
    (library_items api (some t) mcid).2 = [some { ParentId := some mcid, Id := none }] ∧
    (library_items api (some t) mcid).1.children
      = (api.respond (some { ParentId := some mcid, Id := none })).map (mkChildMedia api) ∧
    (library_items api (some t) mcid).1.can_expand = true := by
  have hne : t ≠ "library" := by
    intro hcontra
    subst hcontra
    exact absurd ht (by decide)
  simp [library_items, hne, ht, get_items]

theorem library_items_single_request_witness :
    (library_items apiCE (some MEDIA_CLASS_DIRECTORY) "p").2
      = [some { ParentId := some "p", Id := none }] ∧
    (library_items apiCE (some MEDIA_CLASS_DIRECTORY) "p").1.children
      = (apiCE.respond (some { ParentId := some "p", Id := none })).map (mkChildMedia apiCE) ∧
    (library_items apiCE (some MEDIA_CLASS_DIRECTORY) "p").1.can_expand = true :=
  library_items_single_request apiCE MEDIA_CLASS_DIRECTORY "p" (by decide)

/-- C2: running `update_device_list` on a session list, every session
whose `DeviceId` differs from the configured client id and whose key
`DeviceId.Client` is not yet in the devices map gets inserted under
that key with exactly that session and an active flag, and the
new-devices callback fires at least once.  The session-list keys are
assumed pairwise distinct, as they are for server session lists (one
session per device/client pair). -/
theorem udl_new_device_spec (cid : String) (ss : List Session)
    (devices : List (String × JellyfinDevice))
    (res : List (String × JellyfinDevice) × List Event) (s : Session)
    (hnodup : (ss.map dev_name).Nodup)
    (hs : s ∈ ss) (hcid : s.DeviceId ≠ cid)
    (hnew : devices.lookup (dev_name s) = none)
    (hres : update_device_list cid (some ss) devices = some res) :
    res.1.lookup (dev_name s) = some { session := s, is_active := true } ∧
    Event.newDevices ∈ res.2 := by
  obtain ⟨l1, l2, rfl⟩ := List.append_of_mem hs
  rw [List.map_append, List.map_cons] at hnodup
  have hnd := List.nodup_middle.mp hnodup
  rw [List.nodup_cons] at hnd
  have hkA : dev_name s ∉ l1.map dev_name :=
    fun hh => hnd.1 (List.mem_append_left _ hh)
  have hkB : dev_name s ∉ l2.map dev_name :=
    fun hh => hnd.1 (List.mem_append_right _ hh)
  simp only [update_device_list] at hres
  split at hres
  · exact Option.noConfusion hres
  · rename_i st hrun
    injection hres with hres2
    subst hres2
    obtain ⟨st1, h1, h2⟩ := udl_run_append_some cid l1 (s :: l2) _ st hrun
    have hlk1 : st1.devices.lookup (dev_name s) = none := by
      obtain ⟨-, hne1, -, -⟩ := udl_run_props cid l1 _ st1 h1
      rw [hne1 _ hkA]
      exact hnew
    have hstep := udl_step_insert cid st1 s hlk1 hcid
    have h2' : udl_run cid l2
        { devices := st1.devices ++ [(dev_name s, { session := s, is_active := true })]
          active_devices := st1.active_devices ++ [dev_name s]
          new_devices := st1.new_devices ++ [{ session := s, is_active := true }]
          dev_update := st1.dev_update
          events := st1.events } = some st := by
      have hrw : udl_run cid (s :: l2) st1 = udl_run cid l2
          { devices := st1.devices ++ [(dev_name s, { session := s, is_active := true })]
            active_devices := st1.active_devices ++ [dev_name s]
            new_devices := st1.new_devices ++ [{ session := s, is_active := true }]
            dev_update := st1.dev_update
            events := st1.events } := by
        show (match udl_step cid st1 s with
          | none => none
          | some st' => udl_run cid l2 st') = _
        rw [hstep]
      rw [← hrw]
      exact h2
    obtain ⟨ha3, hne3, -, hnew3⟩ := udl_run_props cid l2 _ st h2'
    have hlkF : st.devices.lookup (dev_name s) =
        some { session := s, is_active := true } := by
      rw [hne3 _ hkB]
      exact lookup_append_singleton_self _ hlk1
    have hnewF : st.new_devices ≠ [] := hnew3 (by simp)
    have hact : dev_name s ∈ st.active_devices := by
      rw [ha3]
      exact List.mem_append_left _ (by simp)
    constructor
    · show ((mark_stale st.active_devices st.devices).1).lookup (dev_name s) = _
      rw [mark_stale_lookup, hlkF]
      simp [hact]
    · show Event.newDevices ∈ st.events ++ (mark_stale st.active_devices st.devices).2
        ++ (if st.new_devices.isEmpty then [] else [Event.newDevices])
      have hemp : st.new_devices.isEmpty = false := by
        cases hx : st.new_devices with
        | nil => exact absurd hx hnewF
        | cons a l => rfl
      rw [hemp]
      simp

theorem udl_new_device_spec_witness :
    (([("a.b", ({ session := sessW, is_active := true } : JellyfinDevice))] :
        List (String × JellyfinDevice)).lookup (dev_name sessW)
      = some { session := sessW, is_active := true }) ∧
    Event.newDevices ∈ ([Event.newDevices] : List Event) :=
  udl_new_device_spec "c" [sessW] []
    ([("a.b", { session := sessW, is_active := true })], [Event.newDevices]) sessW
    (by simp) (by simp) (by decide) rfl (by rfl)

/-- C3: `update_device_list` never removes an entry from the devices
map; a cached device whose key is not among the session-list keys is
switched inactive (its session data kept) with the update and stale
callbacks fired when it was active, and is left untouched when it was
already inactive. -/
theorem udl_stale_spec (cid : String) (ss : List Session)
    (devices : List (String × JellyfinDevice))
    (res : List (String × JellyfinDevice) × List Event)
    (k : String) (d : JellyfinDevice)
    (hres : update_device_list cid (some ss) devices = some res)
    (hk : devices.lookup k = some d)
    (hmiss : k ∉ ss.map dev_name) :
    (∀ j, (devices.lookup j).isSome → (res.1.lookup j).isSome) ∧
    (d.is_active = true →
      res.1.lookup k = some { session := d.session, is_active := false } ∧
      Event.update k ∈ res.2 ∧ Event.stale k ∈ res.2) ∧
    (d.is_active = false → res.1.lookup k = some d) := by
  simp only [update_device_list] at hres
  split at hres
  · exact Option.noConfusion hres
  · rename_i st hrun
    injection hres with hres2
    subst hres2
    obtain ⟨ha, hne, hsome, -⟩ := udl_run_props cid ss _ st hrun
    have hlkF : st.devices.lookup k = some d := by
      rw [hne _ hmiss]
      exact hk
    have hactF : k ∉ st.active_devices := by
      rw [ha]
      simpa using hmiss
    refine ⟨?_, ?_, ?_⟩
    · intro j hj
      show (((mark_stale st.active_devices st.devices).1).lookup j).isSome
      rw [mark_stale_lookup]
      simpa using hsome j hj
    · intro hdact
      refine ⟨?_, ?_⟩
      · show ((mark_stale st.active_devices st.devices).1).lookup k = _
        rw [mark_stale_lookup, hlkF]
        simp [hactF, hdact]
      · obtain ⟨h1, h2⟩ :=
          mark_stale_events st.active_devices st.devices k d hlkF hactF hdact
        exact ⟨List.mem_append_left _ (List.mem_append_right _ h1),
          List.mem_append_left _ (List.mem_append_right _ h2)⟩
    · intro hdinact
      show ((mark_stale st.active_devices st.devices).1).lookup k = _
      rw [mark_stale_lookup, hlkF]
      simp [hdinact]

theorem udl_stale_spec_witness :
    (([("x.y", ({ session := sessW3, is_active := false } : JellyfinDevice))] :
        List (String × JellyfinDevice)).lookup "x.y"
      = some { session := sessW3, is_active := false }) ∧
    Event.update "x.y" ∈ ([Event.update "x.y", Event.stale "x.y"] : List Event) ∧
    Event.stale "x.y" ∈ ([Event.update "x.y", Event.stale "x.y"] : List Event) :=
  (udl_stale_spec "c" [] [("x.y", devW3)]
    ([("x.y", { session := sessW3, is_active := false })],
      [Event.update "x.y", Event.stale "x.y"]) "x.y" devW3
    (by rfl) rfl (by simp)).2.1 rfl

end Jellyfin
